import Mathlib

/-!
# Verification of the ModelScaleTool plugin

Shallow embedding of `src/ModelScaleTool.py` (the plugin registered by
`src/__init__.py`; `src/TestTool.py` is a near-duplicate of the same logic).

Modelling conventions:
* Python floats are modelled by `PFloat`: an exact rational (`QR`, a
  gcd-normalised numerator/denominator pair; every `QR` built by the
  definitions below has a positive denominator and is in lowest terms, so
  structural equality is value equality) for finite values, plus `inf`,
  `negInf` and `nan`.  The special-value semantics of `abs`, `*`, `/` and
  `!= 0` follow IEEE-754 / CPython (`0 * inf = nan`, `nan != 0` is true,
  any division by a finite zero raises `ZeroDivisionError`, ...).  Finite
  arithmetic is exact (rounding is abstracted away); none of the
  properties below hinges on rounding.
* Python strings are Lean `String`s; `str.split("/")` is `splitChars '/'`
  over the character list, and `float(s)` is `pyFloatOfChars` (a faithful
  subset of CPython's grammar: optional whitespace, optional sign, decimal
  literals with optional fraction and exponent, case-insensitive
  `inf`/`infinity`/`nan`; failure is `none`, which `float` turns into a
  `ValueError`).
* Exceptions (`IndexError` from `splitInput[1]`, `ZeroDivisionError` from
  `/`) are modelled with `Except PyErr`.
* The host scene is modelled by `ToolState`: the list returned by the host
  filter `_getSelectedObjectsWithoutSelectedAncestors()`, the value of
  `Selection.getCount()` (which may exceed the filtered list's length when a
  selected node has a selected ancestor; `Selection.hasSelection()` is
  `getCount() > 0`), and a counter of `toolOperationStopped` emissions.
  `SceneNode.scale(v)` is modelled by appending `v` to the node's log of
  applied scale vectors; `getSetting`/`setSetting` are a per-node string
  key/value store.  `Selection.getBoundingBox()` is read by the setter but
  never used on the `ModelScaleTool.setModelScale` path, so it is omitted.
-/

/-- Euclid's algorithm with an explicit fuel argument (structural recursion,
so the kernel can evaluate it, unlike `Nat.gcd`).  The fuel `x + 1` used by
`natGcd` always suffices because the first argument strictly decreases. -/
def gcdFuel : Nat → Nat → Nat → Nat
  | 0, _, y => y
  | fuel + 1, x, y => if x = 0 then y else gcdFuel fuel (y % x) x

/-- Greatest common divisor, kernel-reducible. -/
def natGcd (x y : Nat) : Nat := gcdFuel (x + 1) x y

/-- An exact rational: numerator and positive denominator in lowest terms
(every `QR` produced by the definitions below is normalised, so structural
equality coincides with value equality). -/
structure QR where
  num : Int
  den : Nat
deriving DecidableEq

/-- Build a normalised `QR` from a raw fraction with positive denominator
(the `den = 0` fallback is never reached by the definitions below). -/
def QR.mk' (n : Int) (d : Nat) : QR :=
  if d = 0 then ⟨0, 1⟩
  else
    let g := natGcd n.natAbs d
    ⟨n / (g : Int), d / g⟩

/-- The rational for a natural number. -/
def QR.ofNat (n : Nat) : QR := ⟨n, 1⟩

/-- Negation. -/
def QR.neg (a : QR) : QR := ⟨-a.num, a.den⟩

/-- Absolute value. -/
def QR.abs (a : QR) : QR := ⟨(a.num.natAbs : Int), a.den⟩

/-- Multiplication. -/
def QR.mul (a b : QR) : QR := QR.mk' (a.num * b.num) (a.den * b.den)

/-- Exact division; only used with a nonzero divisor. -/
def QR.div (a b : QR) : QR :=
  QR.mk' (if 0 ≤ b.num then a.num * b.den else -(a.num * b.den)) (a.den * b.num.natAbs)

/-- A CPython `float` value: an exact rational, `inf`, `-inf` or `nan`. -/
inductive PFloat where
  | finite (q : QR)
  | inf
  | negInf
  | nan
deriving DecidableEq

/-- Python `abs` on floats. -/
def pabs : PFloat → PFloat
  | .finite q => .finite q.abs
  | .inf => .inf
  | .negInf => .inf
  | .nan => .nan

/-- Python `*` on floats (`0 * ±inf = nan`, anything with `nan` is `nan`). -/
def pmul : PFloat → PFloat → PFloat
  | .nan, _ => .nan
  | .finite _, .nan => .nan
  | .inf, .nan => .nan
  | .negInf, .nan => .nan
  | .finite p, .finite q => .finite (p.mul q)
  | .finite p, .inf => if p.num = 0 then .nan else if p.num < 0 then .negInf else .inf
  | .finite p, .negInf => if p.num = 0 then .nan else if p.num < 0 then .inf else .negInf
  | .inf, .finite q => if q.num = 0 then .nan else if q.num < 0 then .negInf else .inf
  | .negInf, .finite q => if q.num = 0 then .nan else if q.num < 0 then .inf else .negInf
  | .inf, .inf => .inf
  | .inf, .negInf => .negInf
  | .negInf, .inf => .negInf
  | .negInf, .negInf => .inf

/-- Python `x != 0` on floats: true for `inf`, `-inf` and `nan` (a normalised
rational is zero exactly when its numerator is). -/
def pyNeZero : PFloat → Bool
  | .finite q => q.num != 0
  | _ => true

/-- Python `/` on floats: division by a finite zero raises `ZeroDivisionError`
(modelled as `none`), whatever the numerator; otherwise IEEE semantics. -/
def pdiv (a b : PFloat) : Option PFloat :=
  match b with
  | .finite q =>
    if q.num = 0 then none
    else
      match a with
      | .finite p => some (.finite (p.div q))
      | .inf => some (if q.num < 0 then .negInf else .inf)
      | .negInf => some (if q.num < 0 then .inf else .negInf)
      | .nan => some .nan
  | .inf =>
    match a with
    | .finite _ => some (.finite ⟨0, 1⟩)
    | .inf => some .nan
    | .negInf => some .nan
    | .nan => some .nan
  | .negInf =>
    match a with
    | .finite _ => some (.finite ⟨0, 1⟩)
    | .inf => some .nan
    | .negInf => some .nan
    | .nan => some .nan
  | .nan => some .nan

/-- Python `str.split(sep)` for a one-character separator, over the character
list.  Always returns a non-empty list; `"".split(sep) == [""]`. -/
def splitChars (sep : Char) : List Char → List (List Char)
  | [] => [[]]
  | c :: cs =>
    let rest := splitChars sep cs
    if c = sep then [] :: rest
    else
      match rest with
      | [] => [[c]]
      | g :: gs => (c :: g) :: gs

/-- Optional leading sign: returns (is-negative, remaining characters). -/
def stripSign : List Char → Bool × List Char
  | '+' :: cs => (false, cs)
  | '-' :: cs => (true, cs)
  | cs => (false, cs)

/-- Numeric value of a decimal digit character. -/
def digitVal (c : Char) : Nat := c.toNat - '0'.toNat

/-- Consume a maximal run of decimal digits: returns (value, digit count,
remaining characters). -/
def parseDigits : List Char → Nat × Nat × List Char
  | [] => (0, 0, [])
  | c :: cs =>
    if c.isDigit then
      let r := parseDigits cs
      (digitVal c * 10 ^ r.2.1 + r.1, r.2.1 + 1, r.2.2)
    else (0, 0, c :: cs)

/-- Optional exponent part (`e`/`E`, optional sign, digits) applied to a
mantissa; the remaining input must be exhausted. -/
def parseExpPart (m : QR) : List Char → Option QR
  | [] => some m
  | c :: cs =>
    if c = 'e' ∨ c = 'E' then
      let sr := stripSign cs
      let r := parseDigits sr.2
      if r.2.1 = 0 ∨ r.2.2 ≠ [] then none
      else some (if sr.1 then m.div (QR.ofNat (10 ^ r.1)) else m.mul (QR.ofNat (10 ^ r.1)))
    else none

/-- An unsigned CPython float literal: digits with optional fraction part and
optional exponent (at least one digit overall). -/
def parseNumeric (cs : List Char) : Option QR :=
  let ri := parseDigits cs
  match ri.2.2 with
  | '.' :: rest2 =>
    let rf := parseDigits rest2
    if ri.2.1 + rf.2.1 = 0 then none
    else parseExpPart (QR.mk' ((ri.1 : Int) * 10 ^ rf.2.1 + (rf.1 : Int)) (10 ^ rf.2.1)) rf.2.2
  | rest => if ri.2.1 = 0 then none else parseExpPart (QR.ofNat ri.1) rest

/-- Strip leading and trailing whitespace. -/
def stripWs (cs : List Char) : List Char :=
  ((cs.dropWhile Char.isWhitespace).reverse.dropWhile Char.isWhitespace).reverse

/-- CPython `float(s)`: `none` models a `ValueError`. -/
def pyFloatOfChars (cs0 : List Char) : Option PFloat :=
  let cs1 := stripWs cs0
  let sr := stripSign cs1
  let low := sr.2.map Char.toLower
  if low = "inf".data ∨ low = "infinity".data then
    some (if sr.1 then PFloat.negInf else PFloat.inf)
  else if low = "nan".data then some PFloat.nan
  else
    match parseNumeric sr.2 with
    | some q => some (.finite (if sr.1 then q.neg else q))
    | none => none

/-- `ModelScaleTool._parseFloat` (src/ModelScaleTool.py:109-115): `float(str)`
with a `ValueError` silently coerced to `0.0`. -/
def _parseFloat (cs : List Char) : PFloat :=
  match pyFloatOfChars cs with
  | some v => v
  | none => .finite (QR.ofNat 0)

/-- Modelled from the spec: the host's `SceneNodeSettings.LockPosition`
constant, the per-node string-valued lock flag; its value is the exposed
property name "LockPosition" (the host library defining it is not part of
this repository). -/
def SceneNodeSettings.LockPosition : String := "LockPosition"

/-- A host scene node, reduced to what this plugin touches: its string
key/value settings store and the log of scale vectors applied to it by
`SceneNode.scale`. -/
structure SceneNode where
  settings : List (String × String) := []
  scaleOps : List (PFloat × PFloat × PFloat) := []
deriving DecidableEq

/-- Host `SceneNode.setSetting key value`: overwrite the key's entry. -/
def SceneNode.setSetting (n : SceneNode) (key val : String) : SceneNode :=
  { n with settings := (key, val) :: n.settings.filter (fun p => p.1 != key) }

/-- Host `SceneNode.getSetting key default`. -/
def SceneNode.getSetting (n : SceneNode) (key dflt : String) : String :=
  match n.settings.find? (fun p => p.1 == key) with
  | some p => p.2
  | none => dflt

/-- Host `SceneNode.scale(v)`: record the applied scale vector. -/
def SceneNode.scaleBy (n : SceneNode) (v : PFloat × PFloat × PFloat) : SceneNode :=
  { n with scaleOps := n.scaleOps ++ [v] }

/-- The host state visible to the tool: the filtered selection returned by
`_getSelectedObjectsWithoutSelectedAncestors()`, the value of
`Selection.getCount()`, and a count of `toolOperationStopped` emissions. -/
structure ToolState where
  nodes : List SceneNode
  selectionCount : Nat
  stopEmits : Nat := 0
deriving DecidableEq

/-- Host `Selection.hasSelection()`: the selection list is non-empty, i.e.
`Selection.getCount() > 0`. -/
def hasSelection (st : ToolState) : Bool := 0 < st.selectionCount

/-- Python exceptions this code can raise. -/
inductive PyErr where
  | indexError
  | zeroDivisionError
deriving DecidableEq

instance {ε α : Type} [DecidableEq ε] [DecidableEq α] : DecidableEq (Except ε α) := fun x y =>
  match x, y with
  | .ok a, .ok b =>
    if h : a = b then .isTrue (congrArg Except.ok h)
    else .isFalse (fun hc => h (Except.ok.inj hc))
  | .error e, .error f =>
    if h : e = f then .isTrue (congrArg Except.error h)
    else .isFalse (fun hc => h (Except.error.inj hc))
  | .ok _, .error _ => .isFalse (fun hc => Except.noConfusion hc)
  | .error _, .ok _ => .isFalse (fun hc => Except.noConfusion hc)

/-- Python list indexing, raising `IndexError` when out of bounds. -/
def pyIndex (l : List (List Char)) (i : Nat) : Except PyErr (List Char) :=
  match l.get? i with
  | some a => .ok a
  | none => .error .indexError

/-- The `for selected_node in selected_nodes:` loop body of `setModelScale`
(src/ModelScaleTool.py:131-133): each iteration computes
`SCALE_FACTOR = parsed_Start / parsed_Desired` (which can raise
`ZeroDivisionError`) and applies the uniform scale vector to the node. -/
def runScaleLoop (parsedStart parsedDesired : PFloat) :
    List SceneNode → Except PyErr (List SceneNode)
  | [] => .ok []
  | n :: ns =>
    match pdiv parsedStart parsedDesired with
    | none => .error .zeroDivisionError
    | some k =>
      match runScaleLoop parsedStart parsedDesired ns with
      | .error e => .error e
      | .ok rest => .ok (n.scaleBy (k, k, k) :: rest)

/-- `ModelScaleTool.setModelScale` (src/ModelScaleTool.py:119-137):
split the input on "/", parse and take absolute values of both fields,
and if their product passes the `!= 0` guard, either hit the unimplemented
grouped-operation stub (more than one node) or scale each node by
`parsed_Start / parsed_Desired` uniformly, then emit `toolOperationStopped`.
(`Selection.getBoundingBox()` is also read but never used on this path.) -/
def setModelScale (st : ToolState) (y : String) : Except PyErr ToolState :=
  let splitInput := splitChars '/' y.data
  match pyIndex splitInput 0 with
  | .error e => .error e
  | .ok field0 =>
    let parsed_Desired := pabs (_parseFloat field0)
    match pyIndex splitInput 1 with
    | .error e => .error e
    | .ok field1 =>
      let parsed_Start := pabs (_parseFloat field1)
      if pyNeZero (pmul parsed_Desired parsed_Start) then
        if st.nodes.length > 1 then
          .ok { st with stopEmits := st.stopEmits + 1 }
        else
          match runScaleLoop parsed_Start parsed_Desired st.nodes with
          | .error e => .error e
          | .ok newNodes =>
            .ok { st with nodes := newNodes, stopEmits := st.stopEmits + 1 }
      else
        .ok st

/-- `ModelScaleTool.getX` (src/ModelScaleTool.py:70-79): the bounding-box
read is commented out; the function returns the constant `6.0`. -/
def getX (_ : ToolState) : PFloat := .finite (QR.ofNat 6)

/-- `ModelScaleTool.getY` (src/ModelScaleTool.py:81-92): the bounding-box
read sits inside the docstring; the function returns the constant `1.0`. -/
def getY (_ : ToolState) : PFloat := .finite (QR.ofNat 1)

/-- `ModelScaleTool.getZ` (src/ModelScaleTool.py:94-107): the bounding-box
read sits inside the docstring; the function returns the constant `1.0`. -/
def getZ (_ : ToolState) : PFloat := .finite (QR.ofNat 1)

/-- Python `str(value)` for a `bool`. -/
def pyStrOfBool (b : Bool) : String := if b then "True" else "False"

/-- `ModelScaleTool.setLockPosition` (src/ModelScaleTool.py:148-155): store
`str(value)` under the LockPosition key on every filtered selected node. -/
def setLockPosition (st : ToolState) (value : Bool) : ToolState :=
  { st with
    nodes := st.nodes.map
      (fun n => n.setSetting SceneNodeSettings.LockPosition (pyStrOfBool value)) }

/-- The test `selected_node.getSetting(SceneNodeSettings.LockPosition, "False")
!= "False"` used by `getLockPosition` to classify a node as locked. -/
def nodeLocked (n : SceneNode) : Bool :=
  n.getSetting SceneNodeSettings.LockPosition "False" != "False"

/-- Return type of `getLockPosition`: Python `Union[str, bool]`, either a
boolean or the sentinel string "partially". -/
inductive LockResult where
  | bool (b : Bool)
  | partially
deriving DecidableEq

/-- `ModelScaleTool.getLockPosition` (src/ModelScaleTool.py:157-175):
`total_size = Selection.getCount()`; return `False` without a selection;
otherwise count locked/unlocked nodes over the filtered list and compare the
counters with `total_size`. -/
def getLockPosition (st : ToolState) : LockResult :=
  let total_size := st.selectionCount
  if !(hasSelection st) then .bool false
  else
    let true_state_counter := st.nodes.countP (fun n => nodeLocked n)
    let false_state_counter := st.nodes.countP (fun n => !(nodeLocked n))
    if total_size = false_state_counter then .bool false
    else if total_size = true_state_counter then .bool true
    else .partially

/-- The argument list of `setExposedProperties` in `ModelScaleTool.__init__`
(src/ModelScaleTool.py:52-54). -/
def exposedProperties : List String :=
  ["ToolHint", "X", "Y", "Z", SceneNodeSettings.LockPosition]

/-- Specification-side restatement of the lock-position contract, following
the spec's words: false if none of the nodes are locked, true if all are
locked, the partial sentinel when at least one but not all are locked. -/
def lockPositionSpec (ns : List SceneNode) : LockResult :=
  if ns.all (fun n => !(nodeLocked n)) then .bool false
  else if ns.all (fun n => nodeLocked n) then .bool true
  else .partially

/-- A plain scene node with no settings and no scale history. -/
def node0 : SceneNode := {}

/-- A node whose LockPosition setting is "True". -/
def lockedNode : SceneNode :=
  { settings := [(SceneNodeSettings.LockPosition, "True")] }

/-- One selected node, selection count 1. -/
def stOne : ToolState := { nodes := [node0], selectionCount := 1 }

/-- Two selected nodes, selection count 2. -/
def stTwo : ToolState := { nodes := [node0, node0], selectionCount := 2 }

/-- Two locked selected nodes, selection count 2. -/
def stTwoLocked : ToolState :=
  { nodes := [lockedNode, lockedNode], selectionCount := 2 }

/-- A selection of two nodes of which one has a selected ancestor, so the
filtered list holds a single (locked) node while the count is 2. -/
def stMismatch : ToolState := { nodes := [lockedNode], selectionCount := 2 }

/-! ## Helper lemmas -/

/-- A split never yields the empty list of chunks. -/
theorem splitChars_ne_nil (sep : Char) : ∀ (l : List Char), splitChars sep l ≠ []
  | [] => by simp [splitChars]
  | c :: cs => by
    simp only [splitChars]
    split
    · simp
    · split <;> simp

/-- Splitting a string that does not contain the separator yields the single
chunk holding the whole string. -/
theorem splitChars_eq_single (sep : Char) (l : List Char) (h : sep ∉ l) :
    splitChars sep l = [l] := by
  induction l with
  | nil => rfl
  | cons c cs ih =>
    rw [List.mem_cons] at h
    push_neg at h
    have hc : ¬ c = sep := fun e => h.1 e.symm
    simp [splitChars, hc, ih h.2]

/-- Dividing by a float that passes Python's `!= 0` test never raises. -/
theorem pdiv_isSome_of_pyNeZero (a b : PFloat) (h : pyNeZero b = true) :
    ∃ k, pdiv a b = some k := by
  cases b with
  | finite q =>
    have hq : q.num ≠ 0 := by simpa [pyNeZero] using h
    cases a <;> simp [pdiv, hq]
  | inf => cases a <;> simp [pdiv]
  | negInf => cases a <;> simp [pdiv]
  | nan => cases a <;> simp [pdiv]

/-- Zero times any rational is zero (in the normalised representation). -/
theorem qr_mul_zero_left (q : QR) : (QR.ofNat 0).mul q = QR.ofNat 0 := by
  unfold QR.mul QR.mk' QR.ofNat natGcd gcdFuel
  by_cases hd : q.den = 0
  · simp [hd]
  · simp [hd, Nat.div_self (Nat.pos_of_ne_zero hd)]

/-- Any rational times zero is zero (in the normalised representation). -/
theorem qr_mul_zero_right (q : QR) : q.mul (QR.ofNat 0) = QR.ofNat 0 := by
  unfold QR.mul QR.mk' QR.ofNat natGcd gcdFuel
  by_cases hd : q.den = 0
  · simp [hd]
  · simp [hd, Nat.div_self (Nat.pos_of_ne_zero hd)]

/-- When one factor is the float `0.0` and the other is finite, the
zero-product guard `(a * b) != 0` of `setModelScale` evaluates to false. -/
theorem guard_false_of_zero_field (u v : PFloat)
    (h : u = .finite (QR.ofNat 0) ∨ v = .finite (QR.ofNat 0))
    (hu : ∃ q, u = .finite q) (hv : ∃ q, v = .finite q) :
    pyNeZero (pmul (pabs u) (pabs v)) = false := by
  obtain ⟨qu, rfl⟩ := hu
  obtain ⟨qv, rfl⟩ := hv
  rcases h with h | h <;> rw [PFloat.finite.injEq] at h <;> subst h
  · show pyNeZero (.finite ((QR.ofNat 0).abs.mul qv.abs)) = false
    rw [show (QR.ofNat 0).abs = QR.ofNat 0 from rfl, qr_mul_zero_left]
    rfl
  · show pyNeZero (.finite (qu.abs.mul (QR.ofNat 0).abs)) = false
    rw [show (QR.ofNat 0).abs = QR.ofNat 0 from rfl, qr_mul_zero_right]
    rfl

/-- Reading a setting back immediately after writing it yields the written
value. -/
theorem getSetting_setSetting (n : SceneNode) (k v d : String) :
    (n.setSetting k v).getSetting k d = v := by
  simp [SceneNode.setSetting, SceneNode.getSetting, List.find?]

/-- After `setLockPosition` writes `str(v)`, the node classifies as locked
exactly when `v` is true. -/
theorem nodeLocked_setLock (n : SceneNode) (v : Bool) :
    nodeLocked (n.setSetting SceneNodeSettings.LockPosition (pyStrOfBool v)) = v := by
  cases v <;> simp [nodeLocked, getSetting_setSetting, pyStrOfBool]

/-! ## Claim theorems -/

/-- C2 (amended): for every selection in which the filtered node list has the
same size as the selection count, `getLockPosition` returns false if none of
the nodes are locked, true if all are locked, and the "partially" sentinel
when at least one but not all are locked (the specification-side
`lockPositionSpec`). -/
theorem getLockPosition_eq_spec (st : ToolState)
    (hsz : st.selectionCount = st.nodes.length) :
    getLockPosition st = lockPositionSpec st.nodes := by
  unfold getLockPosition lockPositionSpec hasSelection
  by_cases h0 : st.selectionCount = 0
  · have hnil : st.nodes = [] := by
      rw [h0] at hsz
      exact List.length_eq_zero.mp hsz.symm
    simp [h0, hnil]
  · rw [hsz] at h0 ⊢
    rw [if_neg (by simp [Nat.pos_of_ne_zero h0])]
    by_cases hall0 : st.nodes.all (fun n => !(nodeLocked n)) = true
    · have h1 : st.nodes.countP (fun n => !(nodeLocked n)) = st.nodes.length :=
        List.countP_eq_length.mpr (List.all_eq_true.mp hall0)
      rw [if_pos h1.symm, if_pos hall0]
    · have h1 : st.nodes.countP (fun n => !(nodeLocked n)) ≠ st.nodes.length := by
        intro hc
        exact hall0 (List.all_eq_true.mpr (List.countP_eq_length.mp hc))
      rw [if_neg (fun hc => h1 hc.symm), if_neg hall0]
      by_cases hall1 : st.nodes.all (fun n => nodeLocked n) = true
      · have h2 : st.nodes.countP (fun n => nodeLocked n) = st.nodes.length :=
          List.countP_eq_length.mpr (List.all_eq_true.mp hall1)
        rw [if_pos h2.symm, if_pos hall1]
      · have h2 : st.nodes.countP (fun n => nodeLocked n) ≠ st.nodes.length := by
          intro hc
          exact hall1 (List.all_eq_true.mpr (List.countP_eq_length.mp hc))
        rw [if_neg (fun hc => h2 hc.symm), if_neg hall1]

/-- C2 witness: on a selection of two locked top-level nodes the getter and
the spec both return true. -/
theorem getLockPosition_eq_spec_witness :
    getLockPosition stTwoLocked = LockResult.bool true ∧
    lockPositionSpec stTwoLocked.nodes = LockResult.bool true :=
  ⟨(getLockPosition_eq_spec stTwoLocked (by decide)).trans (by decide), by decide⟩

/-- C2 counterexample: a selection of count 2 whose filtered list is a single
locked node.  Every node the getter iterates over is locked, the selection is
non-empty, yet the getter returns "partially" rather than true, because its
counters are compared against the full selection count. -/
theorem getLockPosition_partial_on_nested_selection :
    stMismatch.nodes.all (fun n => nodeLocked n) = true ∧
    stMismatch.nodes ≠ [] ∧
    hasSelection stMismatch = true ∧
    getLockPosition stMismatch = LockResult.partially := by decide

/-- C10: setting the lock flag to `v` on a selection whose filtered list has
the same size as the selection count (and is non-empty) and reading it back
yields exactly `v`. -/
theorem lock_position_roundtrip (st : ToolState) (v : Bool)
    (hsz : st.selectionCount = st.nodes.length) (hne : st.nodes ≠ []) :
    getLockPosition (setLockPosition st v) = LockResult.bool v := by
  unfold getLockPosition setLockPosition hasSelection
  have hlen : st.nodes.length ≠ 0 := fun h => hne (List.length_eq_zero.mp h)
  simp only [List.countP_map]
  rw [hsz]
  rw [if_neg (by simp [Nat.pos_of_ne_zero hlen])]
  cases v
  · have h1 : st.nodes.countP
        ((fun n => !(nodeLocked n)) ∘ fun n =>
          n.setSetting SceneNodeSettings.LockPosition (pyStrOfBool false)) = st.nodes.length := by
      apply List.countP_eq_length.mpr
      intro a _
      simp [Function.comp, nodeLocked_setLock]
    rw [if_pos h1.symm]
  · have h1 : st.nodes.countP
        ((fun n => !(nodeLocked n)) ∘ fun n =>
          n.setSetting SceneNodeSettings.LockPosition (pyStrOfBool true)) = 0 := by
      apply List.countP_eq_zero.mpr
      intro a _
      simp [Function.comp, nodeLocked_setLock]
    have h2 : st.nodes.countP
        ((fun n => nodeLocked n) ∘ fun n =>
          n.setSetting SceneNodeSettings.LockPosition (pyStrOfBool true)) = st.nodes.length := by
      apply List.countP_eq_length.mpr
      intro a _
      simp [Function.comp, nodeLocked_setLock]
    rw [h1, if_neg (fun hc => hlen hc), if_pos h2.symm]

/-- C10 witness: on a single-node selection, set-then-get returns true. -/
theorem lock_position_roundtrip_witness :
    getLockPosition (setLockPosition stOne true) = LockResult.bool true :=
  lock_position_roundtrip stOne true (by decide) (by decide)

/-- C1 (amended): for an input of the form "desired/start" in which both
fields parse as floats, the code's zero-product guard on the absolute values
passes, and additionally the parsed desired value's absolute value itself
passes the `!= 0` test (so the division is defined), with exactly one
top-level node selected, the computed factor is `start / desired` (of the
absolute values; for input "4/2" it is 0.5) and that node is scaled
uniformly by this factor on all three axes. -/
theorem scaleFactor_applied (st : ToolState) (n : SceneNode) (y : String) (d s : List Char)
    (hsplit : splitChars '/' y.data = [d, s])
    (_hd : (pyFloatOfChars d).isSome = true) (_hs : (pyFloatOfChars s).isSome = true)
    (hguard : pyNeZero (pmul (pabs (_parseFloat d)) (pabs (_parseFloat s))) = true)
    (hdesired : pyNeZero (pabs (_parseFloat d)) = true)
    (hone : st.nodes = [n]) :
    ∃ k, pdiv (pabs (_parseFloat s)) (pabs (_parseFloat d)) = some k ∧
      setModelScale st y =
        .ok { st with nodes := [n.scaleBy (k, k, k)], stopEmits := st.stopEmits + 1 } := by
  obtain ⟨k, hk⟩ := pdiv_isSome_of_pyNeZero (pabs (_parseFloat s)) (pabs (_parseFloat d)) hdesired
  refine ⟨k, hk, ?_⟩
  unfold setModelScale
  rw [hsplit]
  simp [pyIndex, hguard, hone, runScaleLoop, hk]

/-- C1 witness: for input "4/2" on a single-node selection the factor is
2/4 = 0.5 and the node is scaled by (0.5, 0.5, 0.5). -/
theorem scaleFactor_applied_witness :
    setModelScale stOne "4/2" =
      .ok { stOne with
            nodes := [node0.scaleBy (.finite ⟨1, 2⟩, .finite ⟨1, 2⟩, .finite ⟨1, 2⟩)],
            stopEmits := stOne.stopEmits + 1 } := by
  obtain ⟨k, hk, hrun⟩ := scaleFactor_applied stOne node0 "4/2" "4".data "2".data (by decide)
    (by decide) (by decide) (by decide) (by decide) rfl
  have hv : pdiv (pabs (_parseFloat "2".data)) (pabs (_parseFloat "4".data)) =
      some (.finite ⟨1, 2⟩) := by decide
  rw [hk] at hv
  rw [Option.some.inj hv] at hrun
  exact hrun

/-- C1 counterexample: for input "0/nan" both fields parse as floats
(`0.0` and `nan`), the product of their absolute values passes the code's
`!= 0` test (it is `nan`), and exactly one top-level node is selected, yet no
factor is computed and nothing is scaled: the division raises
`ZeroDivisionError`. -/
theorem scaleFactor_claim_fails_on_zero_over_nan :
    (pyFloatOfChars "0".data).isSome = true ∧
    (pyFloatOfChars "nan".data).isSome = true ∧
    pyNeZero (pmul (pabs (_parseFloat "0".data)) (pabs (_parseFloat "nan".data))) = true ∧
    stOne.nodes.length = 1 ∧
    setModelScale stOne "0/nan" = .error PyErr.zeroDivisionError := by decide

/-- C3 (amended): if one of the two fields is zero or non-numeric (parsing
to the float `0.0`) and the other field parses to a finite float, the
zero-product guard evaluates to false and no scale is applied to any selected
node: the state is returned unchanged. -/
theorem no_scale_on_zero_field (st : ToolState) (y : String) (d s : List Char)
    (rest : List (List Char)) (hsplit : splitChars '/' y.data = d :: s :: rest)
    (hzero : _parseFloat d = .finite (QR.ofNat 0) ∨ _parseFloat s = .finite (QR.ofNat 0))
    (hdfin : ∃ q, _parseFloat d = .finite q) (hsfin : ∃ q, _parseFloat s = .finite q) :
    setModelScale st y = .ok st := by
  have hg := guard_false_of_zero_field (_parseFloat d) (_parseFloat s) hzero hdfin hsfin
  unfold setModelScale
  rw [hsplit]
  simp [pyIndex, hg]

/-- C3 witness: input "0/5" leaves the single-node selection untouched. -/
theorem no_scale_on_zero_field_witness :
    setModelScale stOne "0/5" = .ok stOne :=
  no_scale_on_zero_field stOne "0/5" "0".data "5".data [] (by decide) (Or.inl (by decide))
    ⟨⟨0, 1⟩, by decide⟩ ⟨⟨5, 1⟩, by decide⟩

/-- C3 counterexample: for input "inf/0" the start field is zero, yet a scale
is applied: the product `inf * 0` is `nan`, which passes the `!= 0` guard,
and the node is scaled by the degenerate factor `0/inf = 0.0`. -/
theorem zero_field_scales_on_inf_over_zero :
    _parseFloat "0".data = .finite (QR.ofNat 0) ∧
    setModelScale stOne "inf/0" =
      .ok { stOne with
            nodes := [node0.scaleBy (.finite (QR.ofNat 0), .finite (QR.ofNat 0),
              .finite (QR.ofNat 0))],
            stopEmits := 1 } := by decide

/-- C4: the zero-product guard does not protect the division: for input
"0/inf" (an infinite start value and a zero desired value) the guard passes
(the product is `nan`) and the division `start / desired` raises
`ZeroDivisionError`. -/
theorem div_by_zero_on_guard_passing_input :
    pyNeZero (pmul (pabs (_parseFloat "0".data)) (pabs (_parseFloat "inf".data))) = true ∧
    setModelScale stOne "0/inf" = .error PyErr.zeroDivisionError := by decide

/-- C5: whenever more than one top-level selected node exists, the setter
applies no scale operation: any successful run leaves every node unchanged
(only the grouped-operation stub and the stop emission run), and the division
can never raise. -/
theorem multi_node_stub (st : ToolState) (y : String) (h : 1 < st.nodes.length) :
    (∀ st', setModelScale st y = .ok st' → st'.nodes = st.nodes) ∧
    setModelScale st y ≠ .error PyErr.zeroDivisionError := by
  unfold setModelScale
  cases hsp : splitChars '/' y.data with
  | nil => exact absurd hsp (splitChars_ne_nil '/' y.data)
  | cons a t =>
    cases t with
    | nil =>
      constructor
      · intro st' hst'
        simp [pyIndex] at hst'
      · simp [pyIndex]
    | cons b t' =>
      by_cases hg : pyNeZero (pmul (pabs (_parseFloat a)) (pabs (_parseFloat b))) = true
      · constructor
        · intro st' hst'
          simp [pyIndex, hg, h] at hst'
          rw [← hst']
        · simp [pyIndex, hg, h]
      · constructor
        · intro st' hst'
          simp [pyIndex, hg] at hst'
          rw [← hst']
        · simp [pyIndex, hg]

/-- C5 witness: with two nodes selected, input "4/2" succeeds without scaling
(the successful state keeps the original nodes) and raises no division
error. -/
theorem multi_node_stub_witness :
    ({ stTwo with stopEmits := 1 } : ToolState).nodes = stTwo.nodes ∧
    setModelScale stTwo "4/2" ≠ .error PyErr.zeroDivisionError :=
  ⟨(multi_node_stub stTwo "4/2" (by decide)).1 { stTwo with stopEmits := 1 } (by decide),
   (multi_node_stub stTwo "4/2" (by decide)).2⟩

/-- C6: a guard-passing input can silently apply a degenerate (NaN) scale:
for "nan/nan" the product `nan` passes the `!= 0` test and the node is scaled
by `(nan, nan, nan)` with no error raised. -/
theorem degenerate_nan_scale_applied :
    pyNeZero (pmul (pabs (_parseFloat "nan".data)) (pabs (_parseFloat "nan".data))) = true ∧
    setModelScale stOne "nan/nan" =
      .ok { stOne with nodes := [node0.scaleBy (.nan, .nan, .nan)], stopEmits := 1 } := by decide

/-- C7: the tool exposes exactly the property names ToolHint, X, Y, Z and
LockPosition, with no duplicates. -/
theorem exposed_properties_exact :
    exposedProperties = ["ToolHint", "X", "Y", "Z", "LockPosition"] ∧
    exposedProperties.Nodup := by decide

/-- C8: for every input string containing no "/" separator, the setter
raises an uncaught IndexError when indexing the second split field, whatever
the selection state. -/
theorem index_error_without_separator (st : ToolState) (y : String) (h : '/' ∉ y.data) :
    setModelScale st y = .error PyErr.indexError := by
  unfold setModelScale
  rw [splitChars_eq_single '/' y.data h]
  simp [pyIndex]

/-- C8 witness: the single number "4" raises IndexError. -/
theorem index_error_without_separator_witness :
    setModelScale stOne "4" = .error PyErr.indexError :=
  index_error_without_separator stOne "4" (by decide)

/-- C9: for every selection state, getX returns the constant 6.0 and getY
and getZ each return the constant 1.0 (the bounding-box computations are
commented out in the source). -/
theorem getters_return_constants (st : ToolState) :
    getX st = .finite (QR.ofNat 6) ∧ getY st = .finite (QR.ofNat 1) ∧
    getZ st = .finite (QR.ofNat 1) :=
  ⟨rfl, rfl, rfl⟩
